import Mathlib

/-!
Verification development for the sort-media script (sort_media.py).

The script is modelled by a shallow embedding:

* Python strings are modelled as lists of Unicode code points (`Str := List Nat`);
  the helper `pyStr` converts a Lean string literal into this representation.
* `datetime.datetime` values are modelled by the `DateTime` structure (naive
  calendar timestamps).  `datetime + timedelta` arithmetic is modelled by
  converting to a linear second count over the proleptic Gregorian calendar
  (the same calendar Python uses) and back.
* `time.mktime` / `datetime.fromtimestamp` round-trips are modelled as total
  calendar normalization in a fixed-offset timezone (no DST), which is the
  behaviour the script relies on.
* External collaborators (the EXIF tag reader, the ffmpeg pipeline invoked via
  `sh`, the filesystem, and the stdlib getopt parser) are modelled at their
  interface boundary: their outputs are inputs of the embedded functions.
-/

/-- Python strings, as lists of Unicode code points. -/
abbrev Str := List Nat

/-- Convert a Lean string literal to the code-point representation. -/
def pyStr (s : String) : Str := s.data.map Char.toNat

/-- Model of Python `str.lower` on one character (ASCII letters; the
script only ever lower-cases filenames and extensions). -/
def lowerChar (c : Nat) : Nat := if 65 ≤ c ∧ c ≤ 90 then c + 32 else c

/-- Model of Python `str.lower`. -/
def pyLower (s : Str) : Str := s.map lowerChar

/-- Model of Python `str.startswith`. -/
def strStarts : Str → Str → Bool
  | [], _ => true
  | _ :: _, [] => false
  | p :: ps, c :: cs => p == c && strStarts ps cs

/-- Whitespace characters stripped by Python `str.strip`. -/
def isSpaceChar (c : Nat) : Bool :=
  c == 32 || c == 9 || c == 10 || c == 13 || c == 12 || c == 11

/-- Model of Python `str.strip()`. -/
def pyStrip (s : Str) : Str :=
  ((s.dropWhile isSpaceChar).reverse.dropWhile isSpaceChar).reverse

/-- Model of `os.path.join` for two components (posixpath semantics):
an absolute second component replaces the first; otherwise the parts are
separated by a slash unless the first already ends with one (47 is the
slash code point). -/
def pathJoin2 (a b : Str) : Str :=
  if b.head? = some 47 then b
  else if a = [] ∨ a.getLast? = some 47 then a ++ b
  else a ++ 47 :: b

-- ---------------------------------------------------------------------
-- Proleptic Gregorian calendar arithmetic (models Python datetime).

/-- Number of days from 1970-01-01 to the given civil date
(proleptic Gregorian calendar, months 1..12). -/
def daysFromCivil (y m d : Int) : Int :=
  let y1 : Int := if m ≤ 2 then y - 1 else y
  let era : Int := y1.fdiv 400
  let yoe : Int := y1 - era * 400
  let mp : Int := (m + 9).emod 12
  let doy : Int := (153 * mp + 2).ediv 5 + d - 1
  let doe : Int := yoe * 365 + yoe.ediv 4 - yoe.ediv 100 + doy
  era * 146097 + doe - 719468

/-- Civil date (year, month, day) of the day that is `z0` days after
1970-01-01 (proleptic Gregorian calendar). -/
def civilFromDays (z0 : Int) : Int × Int × Int :=
  let z : Int := z0 + 719468
  let era : Int := z.fdiv 146097
  let doe : Int := z - era * 146097
  let yoe : Int := (doe - doe.ediv 1460 + doe.ediv 36524 - doe.ediv 146096).ediv 365
  let y : Int := yoe + era * 400
  let doy : Int := doe - (365 * yoe + yoe.ediv 4 - yoe.ediv 100)
  let mp : Int := (5 * doy + 2).ediv 153
  let d : Int := doy - (153 * mp + 2).ediv 5 + 1
  let m : Int := mp + (if mp < 10 then 3 else -9)
  (y + (if m ≤ 2 then 1 else 0), m, d)

/-- Model of a naive `datetime.datetime` value. -/
structure DateTime where
  year : Int
  month : Int
  day : Int
  hour : Int
  minute : Int
  second : Int
deriving DecidableEq, Repr

/-- Seconds since the 1970-01-01 00:00:00 epoch of a `DateTime`. -/
def toSecs (t : DateTime) : Int :=
  daysFromCivil t.year t.month t.day * 86400 +
    t.hour * 3600 + t.minute * 60 + t.second

/-- The `DateTime` that is `n` seconds after the epoch. -/
def fromSecs (n : Int) : DateTime :=
  let rem : Int := n.fmod 86400
  let c := civilFromDays (n.fdiv 86400)
  ⟨c.1, c.2.1, c.2.2, rem.ediv 3600, (rem.ediv 60).emod 60, rem.emod 60⟩

/-- Model of the script's global `time_shift` dictionary: the keyword
arguments handed to `datetime.timedelta`. -/
structure TimeShift where
  days : Int
  hours : Int
  minutes : Int
  seconds : Int
deriving DecidableEq, Repr

/-- Total length in seconds of the configured `datetime.timedelta`. -/
def deltaSecs (ts : TimeShift) : Int :=
  ts.days * 86400 + ts.hours * 3600 + ts.minutes * 60 + ts.seconds

/-- Model of `datetime + timedelta` (line 277 of sort_media.py):
exact calendar arithmetic on naive datetimes. -/
def addShift (t : DateTime) (ts : TimeShift) : DateTime :=
  fromSecs (toSecs t + deltaSecs ts)

/-- Model of `datetime.datetime.fromtimestamp(time.mktime(time_struct))`
(line 276): calendar normalization of the parsed fields, modelled in a
fixed-offset timezone. -/
def normDateTime (t : DateTime) : DateTime := fromSecs (toSecs t)

-- ---------------------------------------------------------------------
-- Extension classification (lines 43-44, 222-231, 247-248, 263).

/-- `SUPPORTED_VIDEO_EXTENSIONS` (line 43). -/
def SUPPORTED_VIDEO_EXTENSIONS : List Str :=
  [pyStr "avi", pyStr "mpg", pyStr "mp4", pyStr "3gp", pyStr "mov", pyStr "m4v"]

/-- `SUPPORTED_IMAGE_EXTENSIONS` (line 44). -/
def SUPPORTED_IMAGE_EXTENSIONS : List Str :=
  [pyStr "jpeg", pyStr "jpg", pyStr "png", pyStr "tif", pyStr "tiff"]

/-- `SUPPORTED_EXTENSIONS` (lines 74-75). -/
def SUPPORTED_EXTENSIONS : List Str :=
  SUPPORTED_VIDEO_EXTENSIONS ++ SUPPORTED_IMAGE_EXTENSIONS

/-- Basename of a path: the part after the last slash (code point 47). -/
def basenameOf (p : Str) : Str :=
  (p.reverse.takeWhile (fun c => c != 47)).reverse

/-- Model of `os.path.splitext(path)[1].lstrip('.')` (posixpath semantics,
used at lines 230 and 247): the part of the basename after its last dot
(code point 46), provided some earlier character of the basename is not a
dot; otherwise the empty string.  `lstrip('.')` removes the single leading
dot `splitext` leaves on a non-empty extension. -/
def extOf (p : Str) : Str :=
  let revB := (basenameOf p).reverse
  let revSuf := revB.takeWhile (fun c => c != 46)
  match revB.dropWhile (fun c => c != 46) with
  | [] => []
  | _ :: revPre => if revPre.any (fun c => c != 46) then revSuf.reverse else []

/-- The lower-cased extension, as computed at lines 230 and 247:
`os.path.splitext(path)[1].lstrip('.').lower()`. -/
def extLower (p : Str) : Str := pyLower (extOf p)

/-- The three classes a filename can fall into. -/
inductive MediaClass
  | image
  | video
  | unsupported
deriving DecidableEq, Repr

/-- The extension classifier, assembled from the extension dispatch the
script performs: membership of the lower-cased `splitext` extension in
`SUPPORTED_IMAGE_EXTENSIONS`, else in `SUPPORTED_VIDEO_EXTENSIONS`
(lines 248 and 263), else unsupported. -/
def classify (filename : Str) : MediaClass :=
  let ext := extLower filename
  if ext ∈ SUPPORTED_IMAGE_EXTENSIONS then MediaClass.image
  else if ext ∈ SUPPORTED_VIDEO_EXTENSIONS then MediaClass.video
  else MediaClass.unsupported

/-- Spec-side classifier, following the claim wording literally: the
extension is the substring after the last dot of the filename (no
`splitext` special case for leading dots); a filename without a dot has
no extension. -/
def specClassify (filename : Str) : MediaClass :=
  match filename.reverse.dropWhile (fun c => c != 46) with
  | [] => MediaClass.unsupported
  | _ :: _ =>
    let ext := pyLower (filename.reverse.takeWhile (fun c => c != 46)).reverse
    if ext ∈ SUPPORTED_IMAGE_EXTENSIONS then MediaClass.image
    else if ext ∈ SUPPORTED_VIDEO_EXTENSIONS then MediaClass.video
    else MediaClass.unsupported

-- ---------------------------------------------------------------------
-- Model of time.strptime for the two formats used by the script.

/-- The numeric value of a digit character, if it is one. -/
def readDigit (c : Nat) : Option Nat :=
  if 48 ≤ c ∧ c ≤ 57 then some (c - 48) else none

/-- Parse a one- or two-digit numeric field the way the CPython strptime
regular expressions do: try the two-digit alternatives first (validated by
`ok2`), then the one-digit alternative (validated by `ok1`), backtracking
into the continuation `cont` like the regex engine. -/
def parseField2 {R : Type} (ok2 ok1 : Nat → Bool) (s : Str)
    (cont : Nat → Str → Option R) : Option R :=
  (match s with
   | a :: b :: rest =>
     match readDigit a, readDigit b with
     | some x, some y =>
       if ok2 (x * 10 + y) then cont (x * 10 + y) rest else none
     | _, _ => none
   | _ => none).orElse fun _ =>
  match s with
  | a :: rest =>
    match readDigit a with
    | some x => if ok1 x then cont x rest else none
    | none => none
  | [] => none

/-- Parse exactly four digits (the strptime `%Y` pattern). -/
def parseYear {R : Type} (s : Str) (cont : Nat → Str → Option R) : Option R :=
  match s with
  | a :: b :: c :: d :: rest =>
    match readDigit a, readDigit b, readDigit c, readDigit d with
    | some x, some y, some z, some w => cont (x * 1000 + y * 100 + z * 10 + w) rest
    | _, _, _, _ => none
  | _ => none

/-- A separator inside a strptime format: a literal colon, or a run of
whitespace (strptime turns whitespace in the format into a one-or-more
whitespace match). -/
inductive FmtSep
  | colon
  | ws
deriving DecidableEq, Repr

/-- Consume one separator. -/
def parseSep (sep : FmtSep) (s : Str) : Option Str :=
  match sep with
  | FmtSep.colon =>
    match s with
    | 58 :: rest => some rest
    | _ => none
  | FmtSep.ws =>
    match s with
    | c :: rest => if isSpaceChar c then some (rest.dropWhile isSpaceChar) else none
    | _ => none

/-- Model of `time.strptime(s, fmt)` where fmt is
year SEP month SEP day WS hour SEP minute SEP second, returning the raw
(unnormalized) parsed fields.  With `sep = FmtSep.colon` this is the image
format `%Y:%m:%d %H:%M:%S` (line 259); with `sep = FmtSep.ws` it is the
video format `%Y %m %d %H %M %S` (line 266).  The whole string must be
consumed (strptime raises on unconverted data). -/
def strptime6 (sep : FmtSep) (s : Str) : Option DateTime :=
  parseYear s fun y s =>
  parseSep sep s >>= fun s =>
  parseField2 (fun v => decide (1 ≤ v ∧ v ≤ 12)) (fun v => decide (1 ≤ v)) s fun mo s =>
  parseSep sep s >>= fun s =>
  parseField2 (fun v => decide (1 ≤ v ∧ v ≤ 31)) (fun v => decide (1 ≤ v)) s fun d s =>
  parseSep FmtSep.ws s >>= fun s =>
  parseField2 (fun v => decide (v ≤ 23)) (fun _ => true) s fun h s =>
  parseSep sep s >>= fun s =>
  parseField2 (fun v => decide (v ≤ 59)) (fun _ => true) s fun mi s =>
  parseSep sep s >>= fun s =>
  parseField2 (fun v => decide (v ≤ 59)) (fun _ => true) s fun sec s =>
  match s with
  | [] => some ⟨y, mo, d, h, mi, sec⟩
  | _ :: _ => none

-- ---------------------------------------------------------------------
-- Metadata timestamp resolver (get_media_file_date_time, lines 233-282).

/-- The EXIF tag names tried in order at lines 255-256. -/
def EXIF_DATE_KEYS : List Str :=
  [pyStr "Image DateTime", pyStr "EXIF DateTimeOriginal",
   pyStr "EXIF DateTimeDigitized"]

/-- Dictionary lookup `exif_data[k].printable`: the EXIF reader output is
modelled as an association list from tag name to printable value. -/
def lookupTag (exif : List (Str × Str)) (k : Str) : Option Str :=
  (exif.find? (fun p => p.1 == k)).map (fun p => p.2)

/-- The loop of lines 255-262: try each tag in order; a missing tag or a
parse failure falls through to the next candidate (the bare except/pass). -/
def imageTimeStruct (exif : List (Str × Str)) : Option DateTime :=
  (lookupTag exif (pyStr "Image DateTime") >>= strptime6 FmtSep.colon).orElse fun _ =>
  (lookupTag exif (pyStr "EXIF DateTimeOriginal") >>= strptime6 FmtSep.colon).orElse fun _ =>
  lookupTag exif (pyStr "EXIF DateTimeDigitized") >>= strptime6 FmtSep.colon

/-- The video branch of lines 263-268.  The `sh` collaborator result is
`none` when the external command exited non-zero (then `.strip()` raises
on `None` and the except swallows it) and `some out` with the pipeline
stdout otherwise; a missing `creation_time` field makes the pipeline
print nothing, and any unparsable output fails `strptime`. -/
def videoTimeStruct (shOut : Option Str) : Option DateTime :=
  match shOut with
  | none => none
  | some out => strptime6 FmtSep.ws (pyStrip out)

/-- The non-path inputs of `get_media_file_date_time`: the EXIF reader
output for the image branch and the `sh` pipeline output for the video
branch. -/
structure ResolveInput where
  filename : Str
  exif : List (Str × Str)
  shOut : Option Str

/-- The `time_struct` variable of `get_media_file_date_time` after the
dispatch of lines 246-268: the per-class extraction result, `none` when
nothing usable was found (including the empty-EXIF early return of lines
251-253 and the unsupported-extension case where the variable keeps its
`None` initialization). -/
def rawTimeStruct (inp : ResolveInput) : Option DateTime :=
  if extLower inp.filename ∈ SUPPORTED_IMAGE_EXTENSIONS then
    if inp.exif.isEmpty then none else imageTimeStruct inp.exif
  else if extLower inp.filename ∈ SUPPORTED_VIDEO_EXTENSIONS then
    videoTimeStruct inp.shOut
  else none

/-- Model of `get_media_file_date_time` (lines 233-282): dispatch on the
lower-cased extension, extract a raw time struct, give up with `none`
when nothing was found, otherwise normalize through mktime/fromtimestamp
and apply the configured time shift.  The future-datetime warning (lines
279-281) does not change the result. -/
def get_media_file_date_time (inp : ResolveInput) (shift : TimeShift) :
    Option (DateTime × DateTime) :=
  match rawTimeStruct inp with
  | none => none
  | some raw =>
    some (normDateTime raw, addShift (normDateTime raw) shift)

-- ---------------------------------------------------------------------
-- Destination path resolver (get_dst_media_path, lines 316-344).

/-- Two-digit zero-padded decimal rendering (strftime `%H`, `%M`, `%S`,
`%m`, `%d`); exact for the 0..99 values a datetime field can hold. -/
def pad2 (n : Int) : Str :=
  [48 + (n.emod 100).toNat / 10, 48 + (n.emod 100).toNat % 10]

/-- Four-digit zero-padded decimal rendering (strftime `%Y`; exact for
the years 1000..9999 of any realistic media timestamp). -/
def pad4 (n : Int) : Str :=
  let m := (n.emod 10000).toNat
  [48 + m / 1000, 48 + m / 100 % 10, 48 + m / 10 % 10, 48 + m % 10]

/-- strftime `%Y` of a datetime (line 342). -/
def fmtYear (t : DateTime) : Str := pad4 t.year

/-- strftime `%Y-%m-%d` of a datetime (line 343); 45 is the dash. -/
def fmtDate (t : DateTime) : Str :=
  pad4 t.year ++ 45 :: pad2 t.month ++ 45 :: pad2 t.day

/-- strftime `%H:%M_` of a datetime (line 333), the legacy minute
precision prefix; 58 is the colon, 95 the underscore. -/
def legacyPref (t : DateTime) : Str :=
  pad2 t.hour ++ 58 :: pad2 t.minute ++ [95]

/-- strftime `%H:%M:%S_` of a datetime (line 337), the time prefix put
in front of destination filenames. -/
def timePref (t : DateTime) : Str :=
  pad2 t.hour ++ 58 :: pad2 t.minute ++ 58 :: pad2 t.second ++ [95]

/-- The destination filename computed by `get_dst_media_path` (lines
331-339): lower-case the source name, strip a legacy `%H:%M_` prefix of
the original timestamp, then prepend the `%H:%M:%S_` prefix of the
shifted timestamp unless already present. -/
def dstFilename (srcFilename : Str) (origDatetime shiftedDatetime : DateTime) : Str :=
  let f1 := pyLower srcFilename
  let f2 := if strStarts (legacyPref origDatetime) f1 then f1.drop 6 else f1
  if strStarts (timePref shiftedDatetime) f2 then f2
  else timePref shiftedDatetime ++ f2

/-- Model of `get_dst_media_path` (lines 316-344): the `os.path.join` of
the destination root, the `%Y` and `%Y-%m-%d` renderings of the shifted
timestamp, and the destination filename. -/
def get_dst_media_path (rootdirPath srcFilename : Str)
    (origDatetime shiftedDatetime : DateTime) : Str :=
  pathJoin2 (pathJoin2 (pathJoin2 rootdirPath (fmtYear shiftedDatetime))
      (fmtDate shiftedDatetime))
    (dstFilename srcFilename origDatetime shiftedDatetime)

-- ---------------------------------------------------------------------
-- Filesystem oracle, is_media and listdir (lines 197-231).

/-- The filesystem queries made by `listdir`/`is_media`/`check_dir`,
modelled as oracles. -/
structure FS where
  pathExists : Str → Bool
  isdir : Str → Bool
  isfile : Str → Bool

/-- Model of `is_media` (lines 222-231): the lower-cased `splitext`
extension is supported and the path is a regular file. -/
def is_media (fs : FS) (path : Str) : Bool :=
  decide (extLower path ∈ SUPPORTED_EXTENSIONS) && fs.isfile path

/-- One step of the `listdir` loop (lines 211-217): classify a directory
entry into the files or dirs accumulator, or drop it. -/
def listdirStep (fs : FS) (path : Str) (acc : List Str × List Str) (i : Str) :
    List Str × List Str :=
  let absI := pathJoin2 path i
  if fs.pathExists absI then
    if fs.isdir absI then (acc.1, acc.2 ++ [i])
    else if is_media fs absI then (acc.1 ++ [i], acc.2)
    else acc
  else acc

/-- Lexicographic comparison on code-point lists, the order Python
`list.sort()` uses on strings. -/
abbrev strLe : Str → Str → Prop := fun a b => a ≤ b

/-- Model of `listdir` (lines 197-220): `entries` is the OS-order result
of `os.listdir(path)`; the loop splits it into media files and
subdirectories, and both lists are sorted in place before returning. -/
def listdir (fs : FS) (path : Str) (entries : List Str) : List Str × List Str :=
  let acc := entries.foldl (listdirStep fs path) ([], [])
  (List.insertionSort strLe acc.1, List.insertionSort strLe acc.2)

-- ---------------------------------------------------------------------
-- Command line handling (lines 346-446).

/-- The long option names accepted by the `getopt.getopt` call at lines
402-406.  getopt guarantees every parsed option uses one of these names. -/
inductive OptName
  | move
  | help
  | dryRun
  | quiet
  | dnrcd
  | debug
  | chmod
  | yearShift
  | monthShift
  | dayShift
  | hourShift
  | minuteShift
  | secondShift
deriving DecidableEq, Repr

/-- The process-wide configuration the option loop mutates (lines 57-72). -/
structure Config where
  quiet : Bool
  dryRun : Bool
  debug : Bool
  filesMode : Int
  removeClearedDirs : Bool
  move : Bool
  timeShift : TimeShift
deriving DecidableEq, Repr

/-- The initial configuration (lines 57-72): copy action, chmod 0644,
cleared directories removed, all shifts zero. -/
def defaultConfig : Config :=
  ⟨false, false, false, 420, true, false, ⟨0, 0, 0, 0⟩⟩

/-- Model of Python `int(string)` on an argv token: optional sign then at
least one decimal digit (43 is the plus sign, 45 the minus sign). -/
def parseIntPy (s : Str) : Option Int :=
  let core : Str → Int → Option Int := fun l sign =>
    if l ≠ [] ∧ l.all (fun c => decide (48 ≤ c ∧ c ≤ 57)) then
      some (sign * l.foldl (fun acc c => acc * 10 + ((c : Int) - 48)) 0)
    else none
  match s with
  | 45 :: rest => core rest (-1)
  | 43 :: rest => core rest 1
  | _ => core s 1

/-- Model of Python `int(string, 8)` for the chmod value: optional sign
then at least one octal digit. -/
def parseOctPy (s : Str) : Option Int :=
  let core : Str → Int → Option Int := fun l sign =>
    if l ≠ [] ∧ l.all (fun c => decide (48 ≤ c ∧ c ≤ 55)) then
      some (sign * l.foldl (fun acc c => acc * 8 + ((c : Int) - 48)) 0)
    else none
  match s with
  | 45 :: rest => core rest (-1)
  | 43 :: rest => core rest 1
  | _ => core s 1

/-- How the process stops before any file processing. -/
inductive ExitKind
  | usageExit
  | errExit
  | crash
deriving DecidableEq, Repr

/-- Outcome of the entry point up to the `process_dir` call: either an
early exit (every `ExitKind` carries a non-zero process exit status;
`usageExit` is the only outcome that prints the usage text, `errExit`
prints only an error line, `crash` is an uncaught Python exception), or
handing the parsed configuration and both directories to `process_dir`. -/
inductive MainOutcome
  | exit (k : ExitKind)
  | proceed (cfg : Config) (srcDir dstDir : Str)
deriving DecidableEq, Repr

/-- One iteration of the option loop (lines 412-438).  `--help` calls
`usage()` which exits; a malformed shift integer makes `str_to_shift`
print an error and exit (lines 361-373); a malformed octal chmod makes
`int(v, 8)` raise an uncaught ValueError. -/
def applyOpt (cfg : Config) (o : OptName) (v : Str) : Except ExitKind Config :=
  match o with
  | OptName.help => Except.error ExitKind.usageExit
  | OptName.move => Except.ok { cfg with move := true }
  | OptName.quiet => Except.ok { cfg with quiet := true }
  | OptName.dryRun => Except.ok { cfg with dryRun := true }
  | OptName.debug => Except.ok { cfg with debug := true }
  | OptName.dnrcd => Except.ok { cfg with removeClearedDirs := false }
  | OptName.chmod =>
    match parseOctPy v with
    | none => Except.error ExitKind.crash
    | some n => Except.ok { cfg with filesMode := n }
  | OptName.yearShift =>
    match parseIntPy v with
    | none => Except.error ExitKind.errExit
    | some n =>
      Except.ok { cfg with timeShift :=
        { cfg.timeShift with days := cfg.timeShift.days + n * 365 } }
  | OptName.monthShift =>
    match parseIntPy v with
    | none => Except.error ExitKind.errExit
    | some n =>
      Except.ok { cfg with timeShift :=
        { cfg.timeShift with days := cfg.timeShift.days + n * 30 } }
  | OptName.dayShift =>
    match parseIntPy v with
    | none => Except.error ExitKind.errExit
    | some n =>
      Except.ok { cfg with timeShift :=
        { cfg.timeShift with days := cfg.timeShift.days + n } }
  | OptName.hourShift =>
    match parseIntPy v with
    | none => Except.error ExitKind.errExit
    | some n =>
      Except.ok { cfg with timeShift := { cfg.timeShift with hours := n } }
  | OptName.minuteShift =>
    match parseIntPy v with
    | none => Except.error ExitKind.errExit
    | some n =>
      Except.ok { cfg with timeShift := { cfg.timeShift with minutes := n } }
  | OptName.secondShift =>
    match parseIntPy v with
    | none => Except.error ExitKind.errExit
    | some n =>
      Except.ok { cfg with timeShift := { cfg.timeShift with seconds := n } }

/-- The whole option loop: options are processed in command-line order,
stopping at the first exiting one. -/
def applyOpts (cfg : Config) : List (OptName × Str) → Except ExitKind Config
  | [] => Except.ok cfg
  | p :: rest =>
    match applyOpt cfg p.1 p.2 with
    | Except.error k => Except.error k
    | Except.ok cfg1 => applyOpts cfg1 rest

/-- Model of `check_dir` (lines 346-359): exit with an error when the
path does not exist or is not a directory. -/
def check_dir (fs : FS) (path : Str) : Except ExitKind Unit :=
  if !fs.pathExists path then Except.error ExitKind.errExit
  else if !fs.isdir path then Except.error ExitKind.errExit
  else Except.ok ()

/-- Model of the entry point (lines 397-446) up to the `process_dir`
call.  The stdlib `getopt` collaborator is modelled at its boundary: its
result is either a GetoptError (then `err` and `usage()` run, lines
407-409) or the parsed option/argument split. -/
def mainEntry (getoptRes : Except Unit (List (OptName × Str) × List Str))
    (fs : FS) : MainOutcome :=
  match getoptRes with
  | Except.error _ => MainOutcome.exit ExitKind.usageExit
  | Except.ok (opts, args) =>
    if args.length = 0 then MainOutcome.exit ExitKind.usageExit
    else
      match applyOpts defaultConfig opts with
      | Except.error k => MainOutcome.exit k
      | Except.ok cfg =>
        match args with
        | [srcDir, dstDir] =>
          match check_dir fs srcDir with
          | Except.error k => MainOutcome.exit k
          | Except.ok _ =>
            match check_dir fs dstDir with
            | Except.error k => MainOutcome.exit k
            | Except.ok _ => MainOutcome.proceed cfg srcDir dstDir
        | _ => MainOutcome.exit ExitKind.errExit

-- ---------------------------------------------------------------------
-- Spec-side characterizations used by the claims.

/-- The six time-shift option names. -/
def shiftNames : List OptName :=
  [OptName.yearShift, OptName.monthShift, OptName.dayShift,
   OptName.hourShift, OptName.minuteShift, OptName.secondShift]

/-- Day-equivalent contribution of one option occurrence, per the spec:
years count 365 days, months 30 days, days 1 day, everything else 0. -/
def dayContrib (o : OptName) (n : Int) : Int :=
  match o with
  | OptName.yearShift => n * 365
  | OptName.monthShift => n * 30
  | OptName.dayShift => n
  | _ => 0

/-- Sum of the day-equivalent contributions of an option sequence. -/
def sumDayContrib (opts : List (OptName × Str)) : Int :=
  (opts.map (fun p => dayContrib p.1 ((parseIntPy p.2).getD 0))).sum

/-- Last-occurrence-wins accumulation for the hour/minute/second shift
options: the value of the last option named `k`, or the initial value. -/
def lastOfKind (k : OptName) (opts : List (OptName × Str)) (init : Int) : Int :=
  opts.foldl (fun acc p => if p.1 = k then (parseIntPy p.2).getD 0 else acc) init

/-- Eligibility of a directory entry for the files list of `listdir`
(lines 211-217): the joined path exists, is not a directory, and
satisfies `is_media`. -/
def eligibleFile (fs : FS) (path i : Str) : Bool :=
  fs.pathExists (pathJoin2 path i) && !fs.isdir (pathJoin2 path i) &&
    is_media fs (pathJoin2 path i)

/-- Eligibility of a directory entry for the dirs list of `listdir`. -/
def eligibleDir (fs : FS) (path i : Str) : Bool :=
  fs.pathExists (pathJoin2 path i) && fs.isdir (pathJoin2 path i)

/-- A filesystem where every path exists as a directory and a file;
used to pin concrete entry-point outcomes that do not depend on the
filesystem. -/
def fsAllTrue : FS := ⟨fun _ => true, fun _ => true, fun _ => true⟩

/-- A filesystem where no path exists. -/
def fsAllFalse : FS := ⟨fun _ => false, fun _ => false, fun _ => false⟩

-- ---------------------------------------------------------------------
-- Helper lemmas.

theorem strStarts_iff (p s : Str) : strStarts p s = true ↔ ∃ t, s = p ++ t := by
  induction p generalizing s with
  | nil => simp [strStarts]
  | cons c ps ih =>
    cases s with
    | nil => simp [strStarts]
    | cons d ds =>
      simp only [strStarts, Bool.and_eq_true, beq_iff_eq, ih, List.cons_append,
        List.cons.injEq]
      constructor
      · rintro ⟨hcd, t, ht⟩; exact ⟨t, hcd.symm, ht⟩
      · rintro ⟨t, hcd, ht⟩; exact ⟨hcd.symm, t, ht⟩

theorem strStarts_append (p t : Str) : strStarts p (p ++ t) = true :=
  (strStarts_iff p (p ++ t)).mpr ⟨t, rfl⟩

theorem lowerChar_idem (c : Nat) : lowerChar (lowerChar c) = lowerChar c := by
  unfold lowerChar
  split_ifs <;> omega

theorem pyLower_idem (s : Str) : pyLower (pyLower s) = pyLower s := by
  unfold pyLower
  rw [List.map_map]
  exact List.map_congr_left fun c _ => lowerChar_idem c

theorem pyLower_append (a b : Str) : pyLower (a ++ b) = pyLower a ++ pyLower b :=
  List.map_append lowerChar a b

theorem pyLower_drop (n : Nat) (s : Str) : pyLower (s.drop n) = (pyLower s).drop n := by
  simp [pyLower, List.map_drop]

theorem pad2_shape (n : Int) : ∃ a b, pad2 n = [48 + a, 48 + b] ∧ a ≤ 9 ∧ b ≤ 9 := by
  have h1 : (0 : Int) ≤ n.emod 100 := Int.emod_nonneg n (by norm_num)
  have h2 : n.emod 100 < 100 := Int.emod_lt_of_pos n (by norm_num)
  have h3 : (n.emod 100).toNat < 100 := by omega
  refine ⟨(n.emod 100).toNat / 10, (n.emod 100).toNat % 10, rfl, ?_, ?_⟩ <;> omega

theorem lowerChar_fix (c : Nat) (h : c < 65 ∨ 90 < c) : lowerChar c = c := by
  unfold lowerChar
  rw [if_neg]
  omega

theorem pyLower_pad2 (n : Int) : pyLower (pad2 n) = pad2 n := by
  obtain ⟨a, b, hab, ha, hb⟩ := pad2_shape n
  rw [hab]
  simp [pyLower, lowerChar_fix _ (Or.inl (by omega : 48 + a < 65)),
    lowerChar_fix _ (Or.inl (by omega : 48 + b < 65))]

theorem pyLower_timePref (t : DateTime) : pyLower (timePref t) = timePref t := by
  obtain ⟨a, b, hab, ha, hb⟩ := pad2_shape t.hour
  obtain ⟨c, d, hcd, hc, hd⟩ := pad2_shape t.minute
  obtain ⟨e, f, hef, he, hf⟩ := pad2_shape t.second
  unfold timePref
  rw [hab, hcd, hef]
  simp [pyLower, lowerChar_fix _ (Or.inl (by omega : 48 + a < 65)),
    lowerChar_fix _ (Or.inl (by omega : 48 + b < 65)),
    lowerChar_fix _ (Or.inl (by omega : 48 + c < 65)),
    lowerChar_fix _ (Or.inl (by omega : 48 + d < 65)),
    lowerChar_fix _ (Or.inl (by omega : 48 + e < 65)),
    lowerChar_fix _ (Or.inl (by omega : 48 + f < 65)),
    lowerChar_fix 58 (Or.inl (by omega)), lowerChar_fix 95 (Or.inr (by omega))]

theorem pad4_shape (n : Int) :
    ∃ a b c d, pad4 n = [48 + a, 48 + b, 48 + c, 48 + d] ∧
      a ≤ 9 ∧ b ≤ 9 ∧ c ≤ 9 ∧ d ≤ 9 := by
  have h1 : (0 : Int) ≤ n.emod 10000 := Int.emod_nonneg n (by norm_num)
  have h2 : n.emod 10000 < 10000 := Int.emod_lt_of_pos n (by norm_num)
  have h3 : (n.emod 10000).toNat < 10000 := by omega
  refine ⟨(n.emod 10000).toNat / 1000, (n.emod 10000).toNat / 100 % 10,
    (n.emod 10000).toNat / 10 % 10, (n.emod 10000).toNat % 10, rfl, ?_, ?_, ?_, ?_⟩ <;>
    omega

theorem timePref_shape (t : DateTime) :
    ∃ a b c d e f, timePref t = [48 + a, 48 + b, 58, 48 + c, 48 + d, 58, 48 + e, 48 + f, 95] ∧
      a ≤ 9 ∧ b ≤ 9 ∧ c ≤ 9 ∧ d ≤ 9 ∧ e ≤ 9 ∧ f ≤ 9 := by
  obtain ⟨a, b, hab, ha, hb⟩ := pad2_shape t.hour
  obtain ⟨c, d, hcd, hc, hd⟩ := pad2_shape t.minute
  obtain ⟨e, f, hef, he, hf⟩ := pad2_shape t.second
  exact ⟨a, b, c, d, e, f, by simp [timePref, hab, hcd, hef], ha, hb, hc, hd, he, hf⟩

theorem legacyPref_shape (t : DateTime) :
    ∃ a b c d, legacyPref t = [48 + a, 48 + b, 58, 48 + c, 48 + d, 95] ∧
      a ≤ 9 ∧ b ≤ 9 ∧ c ≤ 9 ∧ d ≤ 9 := by
  obtain ⟨a, b, hab, ha, hb⟩ := pad2_shape t.hour
  obtain ⟨c, d, hcd, hc, hd⟩ := pad2_shape t.minute
  exact ⟨a, b, c, d, by simp [legacyPref, hab, hcd], ha, hb, hc, hd⟩

theorem strStarts_legacy_timePref (o e : DateTime) (t : Str) :
    strStarts (legacyPref o) (timePref e ++ t) = false := by
  obtain ⟨a, b, c, d, hleg, _, _, _, _⟩ := legacyPref_shape o
  obtain ⟨p, q, r, s, u, v, htp, _, _, _, _, _, _⟩ := timePref_shape e
  rw [hleg, htp]
  simp [strStarts]

theorem dstFilename_starts (fn : Str) (o e : DateTime) :
    strStarts (timePref e) (dstFilename fn o e) = true := by
  simp only [dstFilename]
  split <;> split <;> first
  | assumption
  | exact strStarts_append _ _

theorem dstFilename_decomp (fn : Str) (o e : DateTime) :
    ∃ t, dstFilename fn o e = timePref e ++ t :=
  (strStarts_iff _ _).mp (dstFilename_starts fn o e)

theorem pyLower_dstFilename (fn : Str) (o e : DateTime) :
    pyLower (dstFilename fn o e) = dstFilename fn o e := by
  simp only [dstFilename]
  split <;> split
  · rw [pyLower_drop, pyLower_idem]
  · rw [pyLower_append, pyLower_timePref, pyLower_drop, pyLower_idem]
  · rw [pyLower_idem]
  · rw [pyLower_append, pyLower_timePref, pyLower_idem]

theorem dstFilename_idem (fn : Str) (o e : DateTime) :
    dstFilename (dstFilename fn o e) o e = dstFilename fn o e := by
  obtain ⟨t, ht⟩ := dstFilename_decomp fn o e
  have hlow := pyLower_dstFilename fn o e
  have hstart := dstFilename_starts fn o e
  have hleg : strStarts (legacyPref o) (dstFilename fn o e) = false := by
    rw [ht]; exact strStarts_legacy_timePref o e t
  set D := dstFilename fn o e with hD
  simp only [dstFilename]
  rw [hlow]
  simp [hleg, hstart]

theorem pathJoin2_std (a b : Str) (ha : a ≠ []) (ha2 : a.getLast? ≠ some 47)
    (hb : b.head? ≠ some 47) : pathJoin2 a b = a ++ 47 :: b := by
  unfold pathJoin2
  rw [if_neg hb, if_neg]
  push_neg
  exact ⟨ha, ha2⟩

theorem fmtYear_head_ne (e : DateTime) : (fmtYear e).head? ≠ some 47 := by
  obtain ⟨a, b, c, d, h4, _, _, _, _⟩ := pad4_shape e.year
  simp [fmtYear, h4]
  omega

theorem fmtDate_head_ne (e : DateTime) : (fmtDate e).head? ≠ some 47 := by
  obtain ⟨a, b, c, d, h4, _, _, _, _⟩ := pad4_shape e.year
  simp [fmtDate, h4]
  omega

theorem dstFilename_head_ne (fn : Str) (o e : DateTime) :
    (dstFilename fn o e).head? ≠ some 47 := by
  obtain ⟨t, ht⟩ := dstFilename_decomp fn o e
  obtain ⟨a, b, c, d, u, v, htp, _, _, _, _, _, _⟩ := timePref_shape e
  rw [ht, htp]
  simp
  omega

theorem yearPart_getLast_ne (root : Str) (e : DateTime) :
    (root ++ 47 :: fmtYear e).getLast? ≠ some 47 := by
  rw [List.getLast?_append_cons]
  obtain ⟨a, b, c, d, h4, _, _, _, _⟩ := pad4_shape e.year
  simp [fmtYear, h4]
  omega

theorem datePart_getLast_ne (x : Str) (e : DateTime) :
    (x ++ 47 :: fmtDate e).getLast? ≠ some 47 := by
  rw [List.getLast?_append_cons]
  obtain ⟨a, b, c, d, h4, _, _, _, _⟩ := pad4_shape e.year
  obtain ⟨m1, m2, hm, _, _⟩ := pad2_shape e.month
  obtain ⟨d1, d2, hd, _, _⟩ := pad2_shape e.day
  simp [fmtDate, h4, hm, hd]
  omega

-- ---------------------------------------------------------------------
-- Claims.

/-- C1: for every destination root (a non-empty path with no trailing
slash, so that the `os.path.join` calls compose by inserting single
slashes), source filename and resolved timestamps, the resolver returns
`dest_root/YYYY/YYYY-MM-DD/prefixed_lowercased_filename` built from the
effective (shifted) timestamp; and concretely, `photo.JPG` with EXIF
`DateTimeOriginal 2021:06:15 09:05:30`, no shift and root `/out`
resolves to `/out/2021/2021-06-15/09:05:30_photo.jpg`. -/
theorem C1_dst_path_layout :
    (∀ (root fn : Str) (o e : DateTime), root ≠ [] → root.getLast? ≠ some 47 →
      get_dst_media_path root fn o e =
        root ++ 47 :: (fmtYear e ++ 47 :: (fmtDate e ++ 47 :: dstFilename fn o e)))
    ∧ (get_media_file_date_time
        ⟨pyStr "photo.JPG",
         [(pyStr "EXIF DateTimeOriginal", pyStr "2021:06:15 09:05:30")], none⟩
        ⟨0, 0, 0, 0⟩).map
        (fun p => get_dst_media_path (pyStr "/out") (pyStr "photo.JPG") p.1 p.2) =
      some (pyStr "/out/2021/2021-06-15/09:05:30_photo.jpg") := by
  constructor
  · intro root fn o e hne hlast
    unfold get_dst_media_path
    rw [pathJoin2_std root _ hne hlast (fmtYear_head_ne e)]
    rw [pathJoin2_std _ _ (by simp) (yearPart_getLast_ne root e) (fmtDate_head_ne e)]
    rw [pathJoin2_std _ _ (by simp) (datePart_getLast_ne _ e) (dstFilename_head_ne fn o e)]
    simp
  · decide

/-- C1 witness: the layout equation instantiated at the end-to-end
example timestamps. -/
theorem C1_dst_path_layout_witness :
    get_dst_media_path (pyStr "/out") (pyStr "photo.JPG")
        ⟨2021, 6, 15, 9, 5, 30⟩ ⟨2021, 6, 15, 9, 5, 30⟩ =
      pyStr "/out" ++ 47 :: (fmtYear ⟨2021, 6, 15, 9, 5, 30⟩ ++
        47 :: (fmtDate ⟨2021, 6, 15, 9, 5, 30⟩ ++
          47 :: dstFilename (pyStr "photo.JPG") ⟨2021, 6, 15, 9, 5, 30⟩
            ⟨2021, 6, 15, 9, 5, 30⟩)) :=
  C1_dst_path_layout.1 (pyStr "/out") (pyStr "photo.JPG") _ _ (by decide) (by decide)

/-- C6: destination path resolution is idempotent: feeding the resolved
filename back into the resolver with the same pair of timestamps yields
the same path, because the effective-time prefix is only prepended when
not already present and the legacy strip never fires on a prefixed
name. -/
theorem C6_dst_path_idempotent (root fn : Str) (o e : DateTime) :
    get_dst_media_path root (dstFilename fn o e) o e =
      get_dst_media_path root fn o e := by
  unfold get_dst_media_path
  rw [dstFilename_idem]

theorem legacyPref_length (o : DateTime) : (legacyPref o).length = 6 := by
  obtain ⟨a, b, c, d, h, _, _, _, _⟩ := legacyPref_shape o
  rw [h]
  rfl

/-- C5: when the lower-cased source filename starts with the original
(pre-shift) timestamp in the legacy HH:MM_ form, exactly that prefix (6
characters, underscore included) is removed before the effective-time
prefix step runs on the remainder; the legacy prefix always has length
6; and concretely 14:30_img0001.jpg with original time-of-day 14:30
loses the legacy prefix. -/
theorem C5_legacy_strip :
    (∀ (fn rest : Str) (o e : DateTime), pyLower fn = legacyPref o ++ rest →
      dstFilename fn o e =
        (if strStarts (timePref e) rest then rest else timePref e ++ rest))
    ∧ (∀ o : DateTime, (legacyPref o).length = 6)
    ∧ dstFilename (pyStr "14:30_img0001.jpg") ⟨2021, 6, 15, 14, 30, 0⟩
        ⟨2021, 6, 15, 14, 30, 0⟩ = pyStr "14:30:00_img0001.jpg" := by
  refine ⟨?_, legacyPref_length, by decide⟩
  intro fn rest o e h
  have h6 : (legacyPref o ++ rest).drop 6 = rest := by
    have hl := legacyPref_length o
    calc (legacyPref o ++ rest).drop 6
        = (legacyPref o ++ rest).drop (legacyPref o).length := by rw [hl]
      _ = rest := List.drop_left _ _
  simp only [dstFilename, h, strStarts_append, if_true, h6]

/-- C5 witness: the strip equation applied to the concrete legacy-named
file of the claim. -/
theorem C5_legacy_strip_witness :
    dstFilename (pyStr "14:30_IMG0001.JPG") ⟨2021, 6, 15, 14, 30, 0⟩
        ⟨2021, 6, 15, 14, 30, 55⟩ =
      (if strStarts (timePref ⟨2021, 6, 15, 14, 30, 55⟩) (pyStr "img0001.jpg")
        then pyStr "img0001.jpg"
        else timePref ⟨2021, 6, 15, 14, 30, 55⟩ ++ pyStr "img0001.jpg") :=
  C5_legacy_strip.1 (pyStr "14:30_IMG0001.JPG") (pyStr "img0001.jpg") _ _ (by decide)

/-- C4 counterexample: the option pair year-shift 1, day-shift 2 does
accumulate 367 days, but adding 367 days to 2020-01-01 00:00:00 lands on
2021-01-02 00:00:00 (2020 is a leap year), not on the 2021-01-03 the
claim states. -/
theorem C4_counterexample :
    (applyOpts defaultConfig
        [(OptName.yearShift, pyStr "1"), (OptName.dayShift, pyStr "2")]).map
      (fun cfg => (cfg.timeShift.days,
        addShift ⟨2020, 1, 1, 0, 0, 0⟩ cfg.timeShift)) =
      Except.ok (367, ⟨2021, 1, 2, 0, 0, 0⟩) ∧
    (⟨2021, 1, 2, 0, 0, 0⟩ : DateTime) ≠ ⟨2021, 1, 3, 0, 0, 0⟩ :=
  ⟨rfl, by decide⟩

/-- C4 amended: year-shift 1 and day-shift 2 accumulate a 367-day offset
(365 + 2), and applying it to 2020-01-01 00:00:00 yields 2021-01-02
00:00:00 (2020 being a leap year). -/
theorem C4_shift_accumulation :
    (applyOpts defaultConfig
        [(OptName.yearShift, pyStr "1"), (OptName.dayShift, pyStr "2")]).map
      (fun cfg => (cfg.timeShift.days,
        addShift ⟨2020, 1, 1, 0, 0, 0⟩ cfg.timeShift)) =
      Except.ok (367, ⟨2021, 1, 2, 0, 0, 0⟩) := rfl

/-- C7 counterexample: under the claim reading of extension as the
substring after the last dot, the filename .jpg would classify as an
image, but the script uses os.path.splitext, which gives a leading-dot
basename no extension, so .jpg is unsupported. -/
theorem C7_counterexample :
    classify (pyStr ".jpg") = MediaClass.unsupported ∧
    specClassify (pyStr ".jpg") = MediaClass.image ∧
    classify (pyStr ".jpg") ≠ specClassify (pyStr ".jpg") :=
  ⟨by decide, by decide, by decide⟩

/-- C7 amended: the classifier lower-cases the extension computed by
os.path.splitext (the substring after the last dot of the basename,
provided some earlier character of the basename is not a dot, so a
leading-dot filename has no extension) and returns image exactly on the
five image extensions, video exactly on the six video extensions, and
unsupported otherwise, including every filename without an extension. -/
theorem C7_classifier (fn : Str) :
    (classify fn = MediaClass.image ↔ extLower fn ∈ SUPPORTED_IMAGE_EXTENSIONS)
    ∧ (classify fn = MediaClass.video ↔ extLower fn ∈ SUPPORTED_VIDEO_EXTENSIONS)
    ∧ (classify fn = MediaClass.unsupported ↔ extLower fn ∉ SUPPORTED_EXTENSIONS)
    ∧ (extOf fn = [] → classify fn = MediaClass.unsupported) := by
  have hdisj : ∀ x ∈ SUPPORTED_IMAGE_EXTENSIONS, x ∉ SUPPORTED_VIDEO_EXTENSIONS := by
    decide
  have hnil : ([] : Str) ∉ SUPPORTED_IMAGE_EXTENSIONS := by decide
  by_cases h1 : extLower fn ∈ SUPPORTED_IMAGE_EXTENSIONS
  · refine ⟨by simp [classify, h1], ?_, ?_, ?_⟩
    · simp [classify, h1, hdisj _ h1]
    · simp [classify, h1, SUPPORTED_EXTENSIONS]
    · intro h0
      exfalso
      rw [extLower, h0] at h1
      exact hnil h1
  · by_cases h2 : extLower fn ∈ SUPPORTED_VIDEO_EXTENSIONS
    · refine ⟨by simp [classify, h1, h2], by simp [classify, h1, h2], ?_, ?_⟩
      · simp [classify, h1, h2, SUPPORTED_EXTENSIONS]
      · intro h0
        exfalso
        rw [extLower, h0] at h2
        exact absurd h2 (by decide)
    · exact ⟨by simp [classify, h1, h2], by simp [classify, h1, h2],
        by simp [classify, h1, h2, SUPPORTED_EXTENSIONS],
        fun _ => by simp [classify, h1, h2]⟩

/-- C7 witness: a filename without any extension classifies as
unsupported. -/
theorem C7_classifier_witness :
    classify (pyStr "noext") = MediaClass.unsupported :=
  (C7_classifier (pyStr "noext")).2.2.2 (by decide)

theorem applyOpts_error_of_mem (p : OptName × Str)
    (herr : ∀ cfg, ∃ k, applyOpt cfg p.1 p.2 = Except.error k) :
    ∀ opts : List (OptName × Str), p ∈ opts → ∀ cfg,
      ∃ k, applyOpts cfg opts = Except.error k := by
  intro opts
  induction opts with
  | nil => intro h; cases h
  | cons q rest ih =>
    intro hp cfg
    rcases List.mem_cons.mp hp with heq | hmem
    · subst heq
      obtain ⟨k, hk⟩ := herr cfg
      exact ⟨k, by simp [applyOpts, hk]⟩
    · cases hq : applyOpt cfg q.1 q.2 with
      | error k => exact ⟨k, by simp [applyOpts, hq]⟩
      | ok cfg1 =>
        obtain ⟨k, hk⟩ := ih hmem cfg1
        exact ⟨k, by simp [applyOpts, hq, hk]⟩

theorem applyOpt_shift_error (o : OptName) (v : Str) (ho : o ∈ shiftNames)
    (hv : parseIntPy v = none) (cfg : Config) :
    applyOpt cfg o v = Except.error ExitKind.errExit := by
  fin_cases ho <;> simp [applyOpt, hv]

theorem check_dir_ok_iff (fs : FS) (p : Str) :
    check_dir fs p = Except.ok () ↔ fs.pathExists p = true ∧ fs.isdir p = true := by
  unfold check_dir
  cases hex : fs.pathExists p <;> cases hdir : fs.isdir p <;> simp

/-- C9 counterexample: a malformed integer shift value makes the script
print an error and exit without the usage message (err-then-exit at
lines 361-373, not the usage path), and a malformed octal chmod raises
an uncaught ValueError; so the claim that every such failure prints the
usage message is false. -/
theorem C9_counterexample :
    mainEntry (Except.ok ([(OptName.dayShift, pyStr "oops")],
        [pyStr "/src", pyStr "/dst"])) fsAllTrue = MainOutcome.exit ExitKind.errExit
    ∧ ExitKind.errExit ≠ ExitKind.usageExit
    ∧ mainEntry (Except.ok ([(OptName.chmod, pyStr "0999")],
        [pyStr "/src", pyStr "/dst"])) fsAllTrue = MainOutcome.exit ExitKind.crash :=
  ⟨by decide, by decide, by decide⟩

/-- C9 amended: every invocation with bad arguments (a getopt failure),
no positional arguments, a malformed integer shift value, a malformed
octal chmod value, a wrong positional-argument count, or a missing or
invalid directory stops before any file processing (the model only
reaches `MainOutcome.proceed` when none of these hold), always with a
non-zero exit; the usage message is printed only in the `usageExit`
outcomes (getopt failure and empty argument list), while malformed
integers and bad directories print an error without usage and a
malformed octal chmod crashes with an uncaught exception. -/
theorem C9_entry_errors :
    (∀ fs, mainEntry (Except.error ()) fs = MainOutcome.exit ExitKind.usageExit)
    ∧ (∀ fs opts, mainEntry (Except.ok (opts, [])) fs =
        MainOutcome.exit ExitKind.usageExit)
    ∧ (∀ fs opts args p, p ∈ opts → p.1 ∈ shiftNames → parseIntPy p.2 = none →
        ∃ k, mainEntry (Except.ok (opts, args)) fs = MainOutcome.exit k)
    ∧ (∀ fs opts args p, p ∈ opts → p.1 = OptName.chmod → parseOctPy p.2 = none →
        ∃ k, mainEntry (Except.ok (opts, args)) fs = MainOutcome.exit k)
    ∧ (∀ fs opts args, args.length ≠ 2 →
        ∃ k, mainEntry (Except.ok (opts, args)) fs = MainOutcome.exit k)
    ∧ (∀ fs opts src dst,
        ¬(fs.pathExists src = true ∧ fs.isdir src = true) ∨
          ¬(fs.pathExists dst = true ∧ fs.isdir dst = true) →
        ∃ k, mainEntry (Except.ok (opts, [src, dst])) fs =
          MainOutcome.exit k) := by
  refine ⟨fun fs => rfl, fun fs opts => rfl, ?_, ?_, ?_, ?_⟩
  · intro fs opts args p hp hshift hparse
    cases args with
    | nil => exact ⟨ExitKind.usageExit, rfl⟩
    | cons a args1 =>
      obtain ⟨k, hk⟩ := applyOpts_error_of_mem p
        (fun cfg => ⟨ExitKind.errExit, applyOpt_shift_error p.1 p.2 hshift hparse cfg⟩)
        opts hp defaultConfig
      exact ⟨k, by simp [mainEntry, hk]⟩
  · intro fs opts args p hp hchmod hparse
    cases args with
    | nil => exact ⟨ExitKind.usageExit, rfl⟩
    | cons a args1 =>
      have herr : ∀ cfg, ∃ k, applyOpt cfg p.1 p.2 = Except.error k := by
        intro cfg
        rw [hchmod]
        exact ⟨ExitKind.crash, by simp [applyOpt, hparse]⟩
      obtain ⟨k, hk⟩ := applyOpts_error_of_mem p herr opts hp defaultConfig
      exact ⟨k, by simp [mainEntry, hk]⟩
  · intro fs opts args hlen
    rcases args with _ | ⟨a, _ | ⟨b, _ | ⟨c, rest⟩⟩⟩
    · exact ⟨ExitKind.usageExit, rfl⟩
    · cases hA : applyOpts defaultConfig opts with
      | error k => exact ⟨k, by simp [mainEntry, hA]⟩
      | ok cfg => exact ⟨ExitKind.errExit, by simp [mainEntry, hA]⟩
    · exact absurd rfl hlen
    · cases hA : applyOpts defaultConfig opts with
      | error k => exact ⟨k, by simp [mainEntry, hA]⟩
      | ok cfg => exact ⟨ExitKind.errExit, by simp [mainEntry, hA]⟩
  · intro fs opts src dst hbad
    cases hA : applyOpts defaultConfig opts with
    | error k => exact ⟨k, by simp [mainEntry, hA]⟩
    | ok cfg =>
      cases hc1 : check_dir fs src with
      | error k => exact ⟨k, by simp [mainEntry, hA, hc1]⟩
      | ok u =>
        cases u
        cases hc2 : check_dir fs dst with
        | error k => exact ⟨k, by simp [mainEntry, hA, hc1, hc2]⟩
        | ok u2 =>
          cases u2
          exfalso
          rcases hbad with h | h
          · exact h ((check_dir_ok_iff fs src).mp hc1)
          · exact h ((check_dir_ok_iff fs dst).mp hc2)

/-- C9 witness: the exit conclusions instantiated at a malformed shift
integer, a single positional argument, and a filesystem without the
requested directories. -/
theorem C9_entry_errors_witness :
    (∃ k, mainEntry (Except.ok ([(OptName.dayShift, pyStr "oops")],
        [pyStr "/s", pyStr "/d"])) fsAllTrue = MainOutcome.exit k)
    ∧ (∃ k, mainEntry (Except.ok ([], [pyStr "/only"])) fsAllTrue =
        MainOutcome.exit k)
    ∧ (∃ k, mainEntry (Except.ok ([], [pyStr "/s", pyStr "/d"])) fsAllFalse =
        MainOutcome.exit k) :=
  ⟨C9_entry_errors.2.2.1 fsAllTrue _ _ (OptName.dayShift, pyStr "oops")
      (by decide) (by decide) (by decide),
   C9_entry_errors.2.2.2.2.1 fsAllTrue [] [pyStr "/only"] (by decide),
   C9_entry_errors.2.2.2.2.2 fsAllFalse [] (pyStr "/s") (pyStr "/d")
      (Or.inl (by decide))⟩

theorem lookupTag_some_ne_nil {exif : List (Str × Str)} {k s : Str}
    (h : lookupTag exif k = some s) : exif.isEmpty = false := by
  cases exif with
  | nil => simp [lookupTag] at h
  | cons a l => rfl

theorem vid_not_img : ∀ x ∈ SUPPORTED_VIDEO_EXTENSIONS,
    x ∉ SUPPORTED_IMAGE_EXTENSIONS := by decide

/-- C2: for image files the resolver tries Image DateTime, then EXIF
DateTimeOriginal, then EXIF DateTimeDigitized, each parsed with the
colon format; the first tag that is present and parses wins (so a
present-and-parsing Image DateTime beats any DateTimeOriginal value), a
missing tag or a parse failure falls through to the next candidate, and
when all three fail the result is none. -/
theorem C2_exif_tag_priority (inp : ResolveInput) (shift : TimeShift)
    (himg : extLower inp.filename ∈ SUPPORTED_IMAGE_EXTENSIONS) :
    (∀ t, (lookupTag inp.exif (pyStr "Image DateTime") >>=
        strptime6 FmtSep.colon) = some t →
      get_media_file_date_time inp shift =
        some (normDateTime t, addShift (normDateTime t) shift))
    ∧ (∀ t, (lookupTag inp.exif (pyStr "Image DateTime") >>=
        strptime6 FmtSep.colon) = none →
      (lookupTag inp.exif (pyStr "EXIF DateTimeOriginal") >>=
        strptime6 FmtSep.colon) = some t →
      get_media_file_date_time inp shift =
        some (normDateTime t, addShift (normDateTime t) shift))
    ∧ (∀ t, (lookupTag inp.exif (pyStr "Image DateTime") >>=
        strptime6 FmtSep.colon) = none →
      (lookupTag inp.exif (pyStr "EXIF DateTimeOriginal") >>=
        strptime6 FmtSep.colon) = none →
      (lookupTag inp.exif (pyStr "EXIF DateTimeDigitized") >>=
        strptime6 FmtSep.colon) = some t →
      get_media_file_date_time inp shift =
        some (normDateTime t, addShift (normDateTime t) shift))
    ∧ ((lookupTag inp.exif (pyStr "Image DateTime") >>=
        strptime6 FmtSep.colon) = none →
      (lookupTag inp.exif (pyStr "EXIF DateTimeOriginal") >>=
        strptime6 FmtSep.colon) = none →
      (lookupTag inp.exif (pyStr "EXIF DateTimeDigitized") >>=
        strptime6 FmtSep.colon) = none →
      get_media_file_date_time inp shift = none) := by
  have hlift : ∀ t, imageTimeStruct inp.exif = some t → inp.exif.isEmpty = false →
      get_media_file_date_time inp shift =
        some (normDateTime t, addShift (normDateTime t) shift) := by
    intro t him hne
    simp [get_media_file_date_time, rawTimeStruct, himg, hne, him]
  refine ⟨?_, ?_, ?_, ?_⟩
  · intro t h1
    obtain ⟨s, hs, _⟩ := Option.bind_eq_some.mp h1
    exact hlift t (by simp [imageTimeStruct, h1]) (lookupTag_some_ne_nil hs)
  · intro t h1 h2
    obtain ⟨s, hs, _⟩ := Option.bind_eq_some.mp h2
    exact hlift t (by simp [imageTimeStruct, h1, h2]) (lookupTag_some_ne_nil hs)
  · intro t h1 h2 h3
    obtain ⟨s, hs, _⟩ := Option.bind_eq_some.mp h3
    exact hlift t (by simp [imageTimeStruct, h1, h2, h3]) (lookupTag_some_ne_nil hs)
  · intro h1 h2 h3
    have him : imageTimeStruct inp.exif = none := by
      simp [imageTimeStruct, h1, h2, h3]
    cases hE : inp.exif.isEmpty <;>
      simp [get_media_file_date_time, rawTimeStruct, himg, hE, him]

/-- C2 witness: with both Image DateTime and EXIF DateTimeOriginal
present and differing, the resolver returns the Image DateTime value. -/
theorem C2_exif_tag_priority_witness :
    get_media_file_date_time
      ⟨pyStr "photo.jpg",
       [(pyStr "Image DateTime", pyStr "2021:06:15 09:05:30"),
        (pyStr "EXIF DateTimeOriginal", pyStr "2020:01:01 00:00:00")], none⟩
      ⟨0, 0, 0, 0⟩ =
      some (normDateTime ⟨2021, 6, 15, 9, 5, 30⟩,
        addShift (normDateTime ⟨2021, 6, 15, 9, 5, 30⟩) ⟨0, 0, 0, 0⟩) :=
  (C2_exif_tag_priority
    ⟨pyStr "photo.jpg",
     [(pyStr "Image DateTime", pyStr "2021:06:15 09:05:30"),
      (pyStr "EXIF DateTimeOriginal", pyStr "2020:01:01 00:00:00")], none⟩
    ⟨0, 0, 0, 0⟩ (by decide)).1 ⟨2021, 6, 15, 9, 5, 30⟩ (by decide)

/-- C8: for video files the resolver returns none, rather than failing,
whenever the external pipeline failed (non-zero exit, modelled by a
`none` collaborator result) or its output, stripped, does not parse as
the whitespace-separated format (which covers a missing creation_time
field, whose pipeline output is empty); and the resolver returns none
exactly when the video extraction failed in one of these ways. -/
theorem C8_video_failures (inp : ResolveInput) (shift : TimeShift)
    (hvid : extLower inp.filename ∈ SUPPORTED_VIDEO_EXTENSIONS) :
    (inp.shOut = none → get_media_file_date_time inp shift = none)
    ∧ (∀ out, inp.shOut = some out → strptime6 FmtSep.ws (pyStrip out) = none →
        get_media_file_date_time inp shift = none)
    ∧ (get_media_file_date_time inp shift = none ↔
        (inp.shOut = none ∨
          ∃ out, inp.shOut = some out ∧ strptime6 FmtSep.ws (pyStrip out) = none)) := by
  have himg := vid_not_img _ hvid
  refine ⟨?_, ?_, ?_⟩
  · intro h
    simp [get_media_file_date_time, rawTimeStruct, himg, hvid, videoTimeStruct, h]
  · intro out hout hparse
    simp [get_media_file_date_time, rawTimeStruct, himg, hvid, videoTimeStruct,
      hout, hparse]
  · cases hout : inp.shOut with
    | none =>
      simp [get_media_file_date_time, rawTimeStruct, himg, hvid, videoTimeStruct, hout]
    | some out =>
      cases hparse : strptime6 FmtSep.ws (pyStrip out) with
      | none =>
        simp [get_media_file_date_time, rawTimeStruct, himg, hvid,
          videoTimeStruct, hout, hparse]
      | some t =>
        simp [get_media_file_date_time, rawTimeStruct, himg, hvid,
          videoTimeStruct, hout, hparse]

/-- C8 witness: a failed pipeline and an empty pipeline output (the
missing creation_time case) both make the resolver skip a video file. -/
theorem C8_video_failures_witness :
    get_media_file_date_time (⟨pyStr "clip.mov", [], none⟩ : ResolveInput)
        ⟨0, 0, 0, 0⟩ = none
    ∧ get_media_file_date_time (⟨pyStr "clip.mov", [], some (pyStr "")⟩ : ResolveInput)
        ⟨0, 0, 0, 0⟩ = none :=
  ⟨(C8_video_failures ⟨pyStr "clip.mov", [], none⟩ ⟨0, 0, 0, 0⟩ (by decide)).1 rfl,
   (C8_video_failures ⟨pyStr "clip.mov", [], some (pyStr "")⟩ ⟨0, 0, 0, 0⟩
      (by decide)).2.1 (pyStr "") rfl (by decide)⟩

theorem sumDayContrib_cons (p : OptName × Str) (rest : List (OptName × Str)) :
    sumDayContrib (p :: rest) =
      dayContrib p.1 ((parseIntPy p.2).getD 0) + sumDayContrib rest := by
  simp [sumDayContrib]

theorem lastOfKind_cons (k : OptName) (p : OptName × Str)
    (rest : List (OptName × Str)) (init : Int) :
    lastOfKind k (p :: rest) init =
      lastOfKind k rest (if p.1 = k then (parseIntPy p.2).getD 0 else init) := by
  simp [lastOfKind]

theorem applyOpts_shift_char (opts : List (OptName × Str)) :
    ∀ cfg : Config, (∀ p ∈ opts, p.1 ∈ shiftNames ∧ (parseIntPy p.2).isSome) →
      (applyOpts cfg opts).map (fun c => c.timeShift) =
        Except.ok ⟨cfg.timeShift.days + sumDayContrib opts,
          lastOfKind OptName.hourShift opts cfg.timeShift.hours,
          lastOfKind OptName.minuteShift opts cfg.timeShift.minutes,
          lastOfKind OptName.secondShift opts cfg.timeShift.seconds⟩ := by
  induction opts with
  | nil =>
    intro cfg _
    simp only [applyOpts, sumDayContrib, lastOfKind, List.map_nil, List.sum_nil,
      List.foldl_nil, add_zero]
    rfl
  | cons p rest ih =>
    intro cfg hall
    obtain ⟨o, v⟩ := p
    obtain ⟨hshift, hsome⟩ := hall (o, v) (List.mem_cons_self _ _)
    obtain ⟨n, hn⟩ := Option.isSome_iff_exists.mp hsome
    have hrest := fun p hp => hall p (List.mem_cons_of_mem _ hp)
    rw [sumDayContrib_cons, lastOfKind_cons, lastOfKind_cons, lastOfKind_cons]
    fin_cases hshift <;>
      simp only [applyOpts, applyOpt, hn] <;>
      rw [ih _ hrest] <;>
      simp [dayContrib, hn, TimeShift.mk.injEq] <;>
      omega

/-- C3: over any sequence of valid time-shift options the year, month
and day contributions are converted to days (times 365, 30, 1) and
summed, while each hour, minute and second option overwrites the
previous value of its kind; the two-hour-shift example yields 5; and the
resolver always returns the effective timestamp equal to the original
timestamp plus the configured offset. -/
theorem C3_shift_config :
    (∀ (cfg : Config) (opts : List (OptName × Str)),
      (∀ p ∈ opts, p.1 ∈ shiftNames ∧ (parseIntPy p.2).isSome) →
      (applyOpts cfg opts).map (fun c => c.timeShift) =
        Except.ok ⟨cfg.timeShift.days + sumDayContrib opts,
          lastOfKind OptName.hourShift opts cfg.timeShift.hours,
          lastOfKind OptName.minuteShift opts cfg.timeShift.minutes,
          lastOfKind OptName.secondShift opts cfg.timeShift.seconds⟩)
    ∧ (applyOpts defaultConfig [(OptName.hourShift, pyStr "1"),
        (OptName.hourShift, pyStr "5")]).map (fun c => c.timeShift.hours) =
      Except.ok 5
    ∧ (∀ (inp : ResolveInput) (shift : TimeShift) (o e : DateTime),
        get_media_file_date_time inp shift = some (o, e) → e = addShift o shift) := by
  refine ⟨fun cfg opts h => applyOpts_shift_char opts cfg h, rfl, ?_⟩
  intro inp shift o e h
  unfold get_media_file_date_time at h
  cases hr : rawTimeStruct inp with
  | none => rw [hr] at h; exact absurd h (by simp)
  | some raw =>
    rw [hr] at h
    simp only [Option.some.injEq, Prod.mk.injEq] at h
    obtain ⟨h1, h2⟩ := h
    rw [← h1, ← h2]

/-- C3 witness: the accumulation equation instantiated at a concrete
option sequence mixing all six shift kinds, and the resolver link
instantiated at a concrete image file. -/
theorem C3_shift_config_witness :
    ((applyOpts defaultConfig
        [(OptName.yearShift, pyStr "1"), (OptName.monthShift, pyStr "2"),
         (OptName.dayShift, pyStr "3"), (OptName.hourShift, pyStr "4"),
         (OptName.hourShift, pyStr "5"), (OptName.minuteShift, pyStr "6"),
         (OptName.secondShift, pyStr "-7")]).map (fun c => c.timeShift) =
      Except.ok ⟨defaultConfig.timeShift.days + sumDayContrib
          [(OptName.yearShift, pyStr "1"), (OptName.monthShift, pyStr "2"),
           (OptName.dayShift, pyStr "3"), (OptName.hourShift, pyStr "4"),
           (OptName.hourShift, pyStr "5"), (OptName.minuteShift, pyStr "6"),
           (OptName.secondShift, pyStr "-7")],
        lastOfKind OptName.hourShift
          [(OptName.yearShift, pyStr "1"), (OptName.monthShift, pyStr "2"),
           (OptName.dayShift, pyStr "3"), (OptName.hourShift, pyStr "4"),
           (OptName.hourShift, pyStr "5"), (OptName.minuteShift, pyStr "6"),
           (OptName.secondShift, pyStr "-7")] defaultConfig.timeShift.hours,
        lastOfKind OptName.minuteShift
          [(OptName.yearShift, pyStr "1"), (OptName.monthShift, pyStr "2"),
           (OptName.dayShift, pyStr "3"), (OptName.hourShift, pyStr "4"),
           (OptName.hourShift, pyStr "5"), (OptName.minuteShift, pyStr "6"),
           (OptName.secondShift, pyStr "-7")] defaultConfig.timeShift.minutes,
        lastOfKind OptName.secondShift
          [(OptName.yearShift, pyStr "1"), (OptName.monthShift, pyStr "2"),
           (OptName.dayShift, pyStr "3"), (OptName.hourShift, pyStr "4"),
           (OptName.hourShift, pyStr "5"), (OptName.minuteShift, pyStr "6"),
           (OptName.secondShift, pyStr "-7")] defaultConfig.timeShift.seconds⟩)
    ∧ addShift (normDateTime ⟨2021, 6, 15, 9, 5, 30⟩) ⟨1, 0, 0, 0⟩ =
        addShift (normDateTime ⟨2021, 6, 15, 9, 5, 30⟩) ⟨1, 0, 0, 0⟩ :=
  ⟨C3_shift_config.1 defaultConfig _ (by decide),
   C3_shift_config.2.2
     ⟨pyStr "photo.jpg", [(pyStr "Image DateTime", pyStr "2021:06:15 09:05:30")], none⟩
     ⟨1, 0, 0, 0⟩ (normDateTime ⟨2021, 6, 15, 9, 5, 30⟩)
     (addShift (normDateTime ⟨2021, 6, 15, 9, 5, 30⟩) ⟨1, 0, 0, 0⟩) (by decide)⟩

theorem listdir_foldl (fs : FS) (path : Str) :
    ∀ (entries : List Str) (fs0 ds0 : List Str),
      entries.foldl (listdirStep fs path) (fs0, ds0) =
        (fs0 ++ entries.filter (eligibleFile fs path),
         ds0 ++ entries.filter (eligibleDir fs path)) := by
  intro entries
  induction entries with
  | nil => intro fs0 ds0; simp
  | cons i rest ih =>
    intro fs0 ds0
    simp only [List.foldl_cons, List.filter_cons]
    cases hex : fs.pathExists (pathJoin2 path i) <;>
      cases hdir : fs.isdir (pathJoin2 path i) <;>
        cases hm : is_media fs (pathJoin2 path i) <;>
          simp [listdirStep, eligibleFile, eligibleDir, hex, hdir, hm, ih]

/-- C10: for every directory listing, the eligible media filenames and
the subdirectory names are returned as two lists, each sorted ascending
in the lexicographic code-point order, each a permutation of the
corresponding filtered input, and the result is the same for any
permutation of the operating-system entry order. -/
theorem C10_listdir_deterministic (fs : FS) (path : Str) (entries : List Str) :
    List.Sorted strLe (listdir fs path entries).1
    ∧ List.Sorted strLe (listdir fs path entries).2
    ∧ (listdir fs path entries).1.Perm (entries.filter (eligibleFile fs path))
    ∧ (listdir fs path entries).2.Perm (entries.filter (eligibleDir fs path))
    ∧ (∀ entries2 : List Str, entries.Perm entries2 →
        listdir fs path entries2 = listdir fs path entries) := by
  have hld : ∀ es : List Str, listdir fs path es =
      (List.insertionSort strLe (es.filter (eligibleFile fs path)),
       List.insertionSort strLe (es.filter (eligibleDir fs path))) := by
    intro es
    simp [listdir, listdir_foldl]
  refine ⟨?_, ?_, ?_, ?_, ?_⟩
  · rw [hld]; exact List.sorted_insertionSort _ _
  · rw [hld]; exact List.sorted_insertionSort _ _
  · rw [hld]; exact List.perm_insertionSort _ _
  · rw [hld]; exact List.perm_insertionSort _ _
  · intro e2 hperm
    rw [hld, hld]
    simp only [Prod.mk.injEq]
    constructor
    · exact List.eq_of_perm_of_sorted
        (((List.perm_insertionSort _ _).trans (hperm.symm.filter _)).trans
          (List.perm_insertionSort _ _).symm)
        (List.sorted_insertionSort _ _) (List.sorted_insertionSort _ _)
    · exact List.eq_of_perm_of_sorted
        (((List.perm_insertionSort _ _).trans (hperm.symm.filter _)).trans
          (List.perm_insertionSort _ _).symm)
        (List.sorted_insertionSort _ _) (List.sorted_insertionSort _ _)

/-- C10 witness: a concrete listing is unchanged when the OS returns
the entries in a different order. -/
theorem C10_listdir_deterministic_witness :
    listdir fsAllTrue (pyStr "/src") [pyStr "a.jpg", pyStr "b.jpg"] =
      listdir fsAllTrue (pyStr "/src") [pyStr "b.jpg", pyStr "a.jpg"] :=
  (C10_listdir_deterministic fsAllTrue (pyStr "/src")
    [pyStr "b.jpg", pyStr "a.jpg"]).2.2.2.2
    [pyStr "a.jpg", pyStr "b.jpg"] (by decide)

